import Mathlib

/-!
Verification development for the `workshop_OpenMM` tutorial repository.

The repository consists of two Jupyter notebooks building Lennard-Jones toy
systems on top of the OpenMM molecular-dynamics library.  The notebooks define
setup functions (`initialize_system`, `create_NonBonndedForce`,
`create_topology`, `boxvectors2length`), a custom integrator class
(`EulerIntegrator`, built on `openmm.CustomIntegrator`), a custom reporter
class (`EnergyReporter`), and a number of simulation cells that drive the
external library.

This file embeds those definitions shallowly in Lean:
* physical quantities (masses, distances, energies) are modelled as rationals
  in fixed consistent units, dropping the `simtk.unit` wrappers;
* each OpenMM object touched by the notebooks (`System`, `NonbondedForce`,
  `Topology`, `CustomIntegrator`) is modelled as a record holding exactly the
  data the notebooks set on it, and each library call the notebooks make is
  modelled as an explicit call descriptor whose effect on the record mirrors
  the library's documented behaviour;
* each setup function is the fold of its (transcribed, in source order) call
  sequence over the freshly constructed object;
* the execution semantics of a `CustomIntegrator` step program (an external
  OpenMM facility, used here on per-degree-of-freedom states without
  constraints or context-modifying forces) is modelled by a small interpreter
  for the documented algebraic expression language;
* the notebook cells that drive simulations are transcribed as lists of
  pipeline actions so that ordering properties can be checked.
-/

namespace MD

/-- A 3-vector of rationals (one row of a box-vector matrix). -/
abbrev Vec3 : Type := ℚ × ℚ × ℚ

/-- A 3×3 matrix of rationals given as its three rows. -/
abbrev Mat3 : Type := Vec3 × Vec3 × Vec3

/-- `np.diag([b, b, b])`: the diagonal matrix with `b` on the diagonal,
as produced by both notebooks when building box vectors. -/
def diag3 (b : ℚ) : Mat3 := ((b, 0, 0), (0, b, 0), (0, 0, b))

/-! ## `simtk.openmm.System`, as touched by `initialize_system` -/

/-- Model of an `openmm.System`: the per-particle masses (in amu, in insertion
order) and the default periodic box vectors (rows, in the length unit). -/
structure SystemModel where
  particles : List ℚ
  defaultBoxVectors : Mat3
deriving DecidableEq

/-- `mm.System()`: a fresh system has no particles; OpenMM initialises the
default periodic box to a 2 nm cube (the notebooks overwrite it anyway). -/
def SystemModel.empty : SystemModel := ⟨[], diag3 2⟩

/-- The `System` methods called by `initialize_system`, with their arguments. -/
inductive SystemCall where
  | addParticle (mass : ℚ)
  | setDefaultPeriodicBoxVectors (bv : Mat3)
deriving DecidableEq

/-- Effect of each `System` call on the model: `addParticle` appends the mass,
`setDefaultPeriodicBoxVectors` replaces the box. -/
def applySystemCall (s : SystemModel) : SystemCall → SystemModel
  | .addParticle m => { s with particles := s.particles ++ [m] }
  | .setDefaultPeriodicBoxVectors bv => { s with defaultBoxVectors := bv }

/-- The sequence of library calls made by `initialize_system(n_particles,
mass, box_size)`, in source order: `addParticle(mass)` once per loop
iteration, then `setDefaultPeriodicBoxVectors(*np.diag([box_size]*3))`.
(The first `box_vectors` binding in the source is dead: it is rebound before
use.) -/
def systemCallSeq (n_particles : ℕ) (mass box_size : ℚ) : List SystemCall :=
  ((List.range n_particles).map fun _ => SystemCall.addParticle mass)
    ++ [SystemCall.setDefaultPeriodicBoxVectors (diag3 box_size)]

/-- `initialize_system(n_particles, mass, box_size)` from the notebooks:
build a fresh `System` and run the transcribed call sequence on it. -/
def initialize_system (n_particles : ℕ) (mass box_size : ℚ) : SystemModel :=
  (systemCallSeq n_particles mass box_size).foldl applySystemCall SystemModel.empty

/-! ## `simtk.openmm.NonbondedForce`, as touched by `create_NonBonndedForce` -/

/-- The `NonbondedForce` cutoff methods (only `CutoffPeriodic` is used). -/
inductive NonbondedMethod where
  | noCutoff
  | cutoffNonPeriodic
  | cutoffPeriodic
  | ewald
  | pme
deriving DecidableEq

/-- Model of an `openmm.NonbondedForce`: the per-particle
`(charge, sigma, epsilon)` parameter entries in insertion order, plus the
scalar options the notebook sets. -/
structure ForceModel where
  nonbondedMethod : NonbondedMethod
  particles : List (ℚ × ℚ × ℚ)
  cutoffDistance : ℚ
  useSwitchingFunction : Bool
  switchingDistance : ℚ
  useDispersionCorrection : Bool
deriving DecidableEq

/-- `mm.NonbondedForce()`: OpenMM defaults (no particles, `NoCutoff` method,
1 nm cutoff, switching off at distance −1, dispersion correction on); every
field the claims mention is overwritten by the notebook. -/
def ForceModel.new : ForceModel := ⟨.noCutoff, [], 1, false, -1, true⟩

/-- The `NonbondedForce` methods called by `create_NonBonndedForce`. -/
inductive ForceCall where
  | setNonbondedMethod (m : NonbondedMethod)
  | addParticle (params : ℚ × ℚ × ℚ)
  | setCutoffDistance (d : ℚ)
  | setUseSwitchingFunction (b : Bool)
  | setSwitchingDistance (d : ℚ)
  | setUseDispersionCorrection (b : Bool)
deriving DecidableEq

/-- Effect of each `NonbondedForce` call on the model. -/
def applyForceCall (f : ForceModel) : ForceCall → ForceModel
  | .setNonbondedMethod m => { f with nonbondedMethod := m }
  | .addParticle p => { f with particles := f.particles ++ [p] }
  | .setCutoffDistance d => { f with cutoffDistance := d }
  | .setUseSwitchingFunction b => { f with useSwitchingFunction := b }
  | .setSwitchingDistance d => { f with switchingDistance := d }
  | .setUseDispersionCorrection b => { f with useDispersionCorrection := b }

/-- The sequence of library calls made by
`create_NonBonndedForce(n_particles, sigma, epsilon, charge)`, in source
order: set the `CutoffPeriodic` method, add `(charge, sigma, epsilon)` once
per particle, then set cutoff `3.0*sigma`, enable the switching function,
set switching distance `2.5*sigma`, and enable the dispersion correction. -/
def forceCallSeq (n_particles : ℕ) (sigma epsilon charge : ℚ) : List ForceCall :=
  [ForceCall.setNonbondedMethod .cutoffPeriodic]
    ++ ((List.range n_particles).map fun _ => ForceCall.addParticle (charge, sigma, epsilon))
    ++ [ForceCall.setCutoffDistance (3 * sigma),
        ForceCall.setUseSwitchingFunction true,
        ForceCall.setSwitchingDistance (2.5 * sigma),
        ForceCall.setUseDispersionCorrection true]

/-- `create_NonBonndedForce(n_particles, sigma, epsilon, charge)` from the
notebooks (source spelling kept, including the typo). -/
def create_NonBonndedForce (n_particles : ℕ) (sigma epsilon charge : ℚ) : ForceModel :=
  (forceCallSeq n_particles sigma epsilon charge).foldl applyForceCall ForceModel.new

/-! ## `simtk.openmm.app.Topology`, as touched by `create_topology` -/

/-- Model of an `app.Topology`: number of chains, residue records
`(name, chain index, id)` and atom records `(name, element symbol,
residue index)` in insertion order, plus the periodic box vectors. -/
structure TopologyModel where
  chains : ℕ
  residues : List (String × ℕ × ℕ)
  atoms : List (String × String × ℕ)
  periodicBoxVectors : Mat3
deriving DecidableEq

/-- `app.Topology()`: fresh, empty topology (the box is unset in OpenMM;
modelled as the zero matrix, overwritten by the notebook). -/
def TopologyModel.empty : TopologyModel := ⟨0, [], [], diag3 0⟩

/-- The `Topology` methods called by `create_topology`.  The notebook passes
the residue object just returned by `addResidue` to `addAtom`; in the model
`addAtom` therefore attaches the atom to the most recently added residue. -/
inductive TopologyCall where
  | addChain
  | addResidue (name : String) (id : ℕ)
  | addAtom (name element : String)
  | setPeriodicBoxVectors (bv : Mat3)
deriving DecidableEq

/-- Effect of each `Topology` call on the model.  `addResidue` records the
residue on the most recently added chain (the only chain the notebook
creates); `addAtom` attaches to the most recently added residue. -/
def applyTopologyCall (t : TopologyModel) : TopologyCall → TopologyModel
  | .addChain => { t with chains := t.chains + 1 }
  | .addResidue name id => { t with residues := t.residues ++ [(name, t.chains - 1, id)] }
  | .addAtom name element => { t with atoms := t.atoms ++ [(name, element, t.residues.length - 1)] }
  | .setPeriodicBoxVectors bv => { t with periodicBoxVectors := bv }

/-- The sequence of library calls made by `create_topology(n_particles,
box_size)`, in source order: one `addChain`, then per loop iteration `i` an
`addResidue(name='Ar', chain=chain, id=i)` followed by
`addAtom('Ar', Element['Ar'], residue)`, then `setPeriodicBoxVectors`. -/
def topologyCallSeq (n_particles : ℕ) (box_size : ℚ) : List TopologyCall :=
  [TopologyCall.addChain]
    ++ ((List.range n_particles).flatMap fun i =>
          [TopologyCall.addResidue "Ar" i, TopologyCall.addAtom "Ar" "Ar"])
    ++ [TopologyCall.setPeriodicBoxVectors (diag3 box_size)]

/-- `create_topology(n_particles, box_size)` from the notebooks. -/
def create_topology (n_particles : ℕ) (box_size : ℚ) : TopologyModel :=
  (topologyCallSeq n_particles box_size).foldl applyTopologyCall TopologyModel.empty

/-! ## `openmm.CustomIntegrator` and the notebook's `EulerIntegrator` -/

/-- One step of a `CustomIntegrator` program, i.e. the computations the
notebook registers on the integrator.  `computePerDof` stores the target
per-DOF variable and the algebraic expression string, exactly as passed. -/
inductive IntegratorStep where
  | updateContextState
  | computePerDof (dof : String) (expression : String)
  | constrainPositions
  | constrainVelocities
deriving DecidableEq

/-- Model of an `openmm.CustomIntegrator`: its timestep (in femtoseconds) and
the list of registered integration steps, in registration order. -/
structure CustomIntegrator where
  timestep : ℚ
  steps : List IntegratorStep
deriving DecidableEq

/-- `mm.CustomIntegrator(timestep)` (the `super().__init__` call): a fresh
integrator with the given timestep and no steps. -/
def CustomIntegrator.new (timestep : ℚ) : CustomIntegrator := ⟨timestep, []⟩

/-- `addUpdateContextState()`: append the context-update step. -/
def CustomIntegrator.addUpdateContextState (I : CustomIntegrator) : CustomIntegrator :=
  { I with steps := I.steps ++ [.updateContextState] }

/-- `addComputePerDof(variable, expression)`: append a per-DOF computation. -/
def CustomIntegrator.addComputePerDof (I : CustomIntegrator) (dof expression : String) :
    CustomIntegrator :=
  { I with steps := I.steps ++ [.computePerDof dof expression] }

/-- `addConstrainPositions()`: append the position-constraint projection. -/
def CustomIntegrator.addConstrainPositions (I : CustomIntegrator) : CustomIntegrator :=
  { I with steps := I.steps ++ [.constrainPositions] }

/-- `addConstrainVelocities()`: append the velocity-constraint projection. -/
def CustomIntegrator.addConstrainVelocities (I : CustomIntegrator) : CustomIntegrator :=
  { I with steps := I.steps ++ [.constrainVelocities] }

/-- The notebook's `EulerIntegrator.__init__(timestep)`: construct the base
`CustomIntegrator` and register, in source order, `addUpdateContextState()`,
`addComputePerDof("v", "v+dt*f/m")`, `addComputePerDof("x", "x+dt*v")`,
`addConstrainPositions()` and `addConstrainVelocities()`. -/
def EulerIntegrator (timestep : ℚ) : CustomIntegrator :=
  (((((CustomIntegrator.new timestep).addUpdateContextState
      ).addComputePerDof "v" "v+dt*f/m"
      ).addComputePerDof "x" "x+dt*v"
      ).addConstrainPositions
      ).addConstrainVelocities

/-! ## The `CustomIntegrator` expression language and step semantics

OpenMM parses the `addComputePerDof` expression strings into algebraic
expressions over the per-DOF variables `x`, `v`, `f` and the globals `m`,
`dt`, and executes the registered steps sequentially.  The fragment of the
expression language used by the notebook (identifiers combined with the
binary operators `+ - * /`, with the usual precedence and left
associativity) is modelled below by a small AST, parser and evaluator. -/

/-- Algebraic expressions of the `CustomIntegrator` expression language
(the fragment exercised by the notebook). -/
inductive MDExpr where
  | var (name : String)
  | add (a b : MDExpr)
  | sub (a b : MDExpr)
  | mul (a b : MDExpr)
  | div (a b : MDExpr)
deriving DecidableEq

/-- Evaluate an expression under a variable assignment. -/
def MDExpr.eval (env : String → ℚ) : MDExpr → ℚ
  | .var n => env n
  | .add a b => a.eval env + b.eval env
  | .sub a b => a.eval env - b.eval env
  | .mul a b => a.eval env * b.eval env
  | .div a b => a.eval env / b.eval env

/-- Lex one identifier (a maximal run of letters) off the input. -/
def lexIdent (cs : List Char) : String × List Char :=
  (String.mk (cs.takeWhile Char.isAlpha), cs.dropWhile Char.isAlpha)

/-- Parse a factor: an identifier. -/
def parseFactor (cs : List Char) : Option (MDExpr × List Char) :=
  let (name, rest) := lexIdent cs
  if name.isEmpty then none else some (.var name, rest)

/-- Parse the tail of a term: a left-associated chain of `*` and `/`
applications (fuel-driven recursion on the remaining input length). -/
def parseTermAux : ℕ → MDExpr → List Char → Option (MDExpr × List Char)
  | 0, acc, cs => some (acc, cs)
  | fuel + 1, acc, cs =>
    match cs with
    | '*' :: rest =>
      match parseFactor rest with
      | some (e, rest') => parseTermAux fuel (.mul acc e) rest'
      | none => none
    | '/' :: rest =>
      match parseFactor rest with
      | some (e, rest') => parseTermAux fuel (.div acc e) rest'
      | none => none
    | other => some (acc, other)

/-- Parse a term: a factor followed by `*`/`/` continuations. -/
def parseTerm (cs : List Char) : Option (MDExpr × List Char) :=
  match parseFactor cs with
  | some (e, rest) => parseTermAux rest.length e rest
  | none => none

/-- Parse the tail of an expression: a left-associated chain of `+` and `-`
applications. -/
def parseSumAux : ℕ → MDExpr → List Char → Option (MDExpr × List Char)
  | 0, acc, cs => some (acc, cs)
  | fuel + 1, acc, cs =>
    match cs with
    | '+' :: rest =>
      match parseTerm rest with
      | some (e, rest') => parseSumAux fuel (.add acc e) rest'
      | none => none
    | '-' :: rest =>
      match parseTerm rest with
      | some (e, rest') => parseSumAux fuel (.sub acc e) rest'
      | none => none
    | other => some (acc, other)

/-- Parse a whole `addComputePerDof` expression string; the entire input must
be consumed. -/
def parsePerDofExpr (s : String) : Option MDExpr :=
  match parseTerm s.data with
  | some (e, rest) =>
    match parseSumAux rest.length e rest with
    | some (e', []) => some e'
    | _ => none
  | none => none

/-- The state of one degree of freedom (position, velocity, force, mass),
all in consistent units. -/
structure DofState where
  x : ℚ
  v : ℚ
  f : ℚ
  m : ℚ
deriving DecidableEq

/-- The variable assignment a per-DOF computation sees: the per-DOF
variables `x`, `v`, `f`, the particle mass `m` and the integrator's global
timestep `dt`. -/
def DofState.envOf (s : DofState) (dt : ℚ) : String → ℚ := fun name =>
  if name = "x" then s.x
  else if name = "v" then s.v
  else if name = "f" then s.f
  else if name = "m" then s.m
  else if name = "dt" then dt
  else 0

/-- Write a per-DOF variable; only `x` and `v` are writable in the program
the notebook registers. -/
def DofState.setVar (s : DofState) (name : String) (val : ℚ) : DofState :=
  if name = "x" then { s with x := val }
  else if name = "v" then { s with v := val }
  else s

/-- Execute one registered integrator step on a per-DOF state.
`updateContextState` is the identity here because the notebook's systems
contain no force that modifies the context state; the constraint projections
are supplied as functions `cp`/`cv` (the identity for a system without
constraints).  A `computePerDof` whose expression fails to parse yields
`none`. -/
def execStep (dt : ℚ) (cp cv : DofState → DofState) (s : DofState) :
    IntegratorStep → Option DofState
  | .updateContextState => some s
  | .computePerDof dof e =>
    (parsePerDofExpr e).map fun ex => s.setVar dof (ex.eval (s.envOf dt))
  | .constrainPositions => some (cp s)
  | .constrainVelocities => some (cv s)

/-- Execute a list of integrator steps sequentially. -/
def execSteps (dt : ℚ) (cp cv : DofState → DofState) :
    List IntegratorStep → DofState → Option DofState
  | [], s => some s
  | st :: rest, s =>
    match execStep dt cp cv s st with
    | none => none
    | some s' => execSteps dt cp cv rest s'

/-- One integration step of a `CustomIntegrator`: run its registered step
program with its own timestep, with constraint projections `cp`/`cv`. -/
def CustomIntegrator.stepOnce (I : CustomIntegrator) (cp cv : DofState → DofState)
    (s : DofState) : Option DofState :=
  execSteps I.timestep cp cv I.steps s

/-! ## The notebook's `EnergyReporter` -/

/-- The part of a `Simulation` object the reporter reads. -/
structure SimulationModel where
  currentStep : ℕ
deriving DecidableEq

/-- The part of a `State` object the reporter reads: the potential and
kinetic energies, already expressed in kJ/mol (`value_in_unit` applied). -/
structure SimState where
  potentialEnergy : ℚ
  kineticEnergy : ℚ
deriving DecidableEq

/-- Model of the notebook's `EnergyReporter`: the report interval and the
three in-memory accumulation lists. -/
structure EnergyReporter where
  _reportInterval : ℕ
  _pe : List ℚ
  _ke : List ℚ
  _te : List ℚ
deriving DecidableEq

/-- `EnergyReporter.__init__(reportInterval)`: store the interval and start
with empty lists. -/
def EnergyReporter.init (reportInterval : ℕ) : EnergyReporter :=
  ⟨reportInterval, [], [], []⟩

/-- `EnergyReporter.describeNextReport(simulation)`: the number of steps to
the next report, then `(getPositions, getVelocities, getForces, getEnergy,
enforcePeriodicBox)` = `(False, False, False, True, None)`. -/
def EnergyReporter.describeNextReport (r : EnergyReporter) (simulation : SimulationModel) :
    ℕ × Bool × Bool × Bool × Bool × Option Bool :=
  (r._reportInterval - simulation.currentStep % r._reportInterval,
   false, false, false, true, none)

/-- `EnergyReporter.report(simulation, state)`: append the potential energy,
the kinetic energy, and their sum to the three lists. -/
def EnergyReporter.report (r : EnergyReporter) (simulation : SimulationModel)
    (state : SimState) : EnergyReporter :=
  let pe := state.potentialEnergy
  let ke := state.kineticEnergy
  { r with
    _pe := r._pe ++ [pe]
    _ke := r._ke ++ [ke]
    _te := r._te ++ [pe + ke] }

/-- Fold a sequence of `report` calls over a reporter. -/
def runReports (r : EnergyReporter) (calls : List (SimulationModel × SimState)) :
    EnergyReporter :=
  calls.foldl (fun r c => r.report c.1 c.2) r

/-! ## The notebook cells as pipeline action sequences

Each simulation run in the two notebooks is transcribed below as the list of
actions its cells perform, in cell and statement order.  The spec describes
an eleven-stage pipeline; `stageOf` assigns each action its stage number in
that pipeline (`none` for actions the spec's pipeline does not name, such as
building the `Topology` object or snapshotting state). -/

/-- The kinds of statements the simulation cells execute. -/
inductive PipelineAction where
  | initSystem
  | attachForce
  | pickIntegrator
  | createTopology
  | createContext
  | setPositions
  | setVelocities
  | minimize
  | attachReporter
  | advanceSteps
  | loadTrajectory
  | visualize
  | plotDiagnostics
  | snapshotState
deriving DecidableEq

/-- Stage number of each action in the spec's pipeline: configure particle
system (1) → attach force field (2) → pick integrator (3) → instantiate
simulation context (4) → set initial state (5, positions and velocities) →
minimize (6) → attach reporters (7) → advance steps (8) → load trajectory
(9) → visualize (10) → plot diagnostics (11). -/
def stageOf : PipelineAction → Option ℕ
  | .initSystem => some 1
  | .attachForce => some 2
  | .pickIntegrator => some 3
  | .createTopology => none
  | .createContext => some 4
  | .setPositions => some 5
  | .setVelocities => some 5
  | .minimize => some 6
  | .attachReporter => some 7
  | .advanceSteps => some 8
  | .loadTrajectory => some 9
  | .visualize => some 10
  | .plotDiagnostics => some 11
  | .snapshotState => none

/-- A list of stage numbers is sorted when each is at most the next. -/
def stageSorted : List ℕ → Bool
  | [] => true
  | [_] => true
  | a :: b :: rest => decide (a ≤ b) && stageSorted (b :: rest)

/-- A run follows the pipeline when the stages of its actions (ignoring
unnamed actions) are nondecreasing: no later stage before an earlier one. -/
abbrev followsPipeline (run : List PipelineAction) : Prop :=
  stageSorted (run.filterMap stageOf) = true

/-- The reference (`VerletIntegrator`) bulk run of the integrator notebook:
system, force, integrator, topology, context, positions, velocities,
minimize, DCD and state-data reporters, 10000 steps, trajectory load and
view, CSV load and energy plot. -/
def referenceRun : List PipelineAction :=
  [.initSystem, .attachForce, .pickIntegrator, .createTopology, .createContext,
   .setPositions, .setVelocities, .minimize, .attachReporter, .attachReporter,
   .advanceSteps, .loadTrajectory, .visualize, .plotDiagnostics]

/-- The `EulerIntegrator` bulk run of the integrator notebook (the topology
is built before the integrator there, otherwise as the reference run). -/
def eulerRun : List PipelineAction :=
  [.initSystem, .attachForce, .createTopology, .pickIntegrator, .createContext,
   .setPositions, .setVelocities, .minimize, .attachReporter, .attachReporter,
   .advanceSteps, .loadTrajectory, .visualize, .plotDiagnostics]

/-- The equilibration run preparing the integrator comparison: as the
reference run up to `simulation.step(10000)`, then a state snapshot. -/
def comparisonInitRun : List PipelineAction :=
  [.initSystem, .attachForce, .pickIntegrator, .createTopology, .createContext,
   .setPositions, .setVelocities, .minimize, .advanceSteps, .snapshotState]

/-- One iteration of the integrator-comparison loop (the integrators were
constructed just before the loop): context, positions, velocities, the
`EnergyReporter`, 10000 steps; the total-energy plot follows the loop. -/
def comparisonLoopRun : List PipelineAction :=
  [.pickIntegrator, .createContext, .setPositions, .setVelocities,
   .attachReporter, .advanceSteps, .plotDiagnostics]

/-- The droplet notebook's normal run: system, force, integrator, topology,
context, positions, a visualization of the starting configuration, minimize,
a visualization of the minimized configuration, the two reporters, then the
velocities, 10000 steps, trajectory load and view. -/
def dropletNormalRun : List PipelineAction :=
  [.initSystem, .attachForce, .pickIntegrator, .createTopology, .createContext,
   .setPositions, .visualize, .minimize, .visualize, .attachReporter,
   .attachReporter, .setVelocities, .advanceSteps, .loadTrajectory, .visualize]

/-- The droplet notebook's spherical-restraint run: system, Lennard-Jones
force, integrator, topology, then the `CustomExternalForce` restraint is
attached, context, positions, velocities, minimize, reporters, 10000 steps,
trajectory load and view. -/
def dropletSphericalRun : List PipelineAction :=
  [.initSystem, .attachForce, .pickIntegrator, .createTopology, .attachForce,
   .createContext, .setPositions, .setVelocities, .minimize, .attachReporter,
   .attachReporter, .advanceSteps, .loadTrajectory, .visualize]

/-! ## Fallible external calls

The notebook functions contain no `try`/`except`: each body is a plain
sequence of external-library calls.  To state the error-handling claim, each
function is re-read with its external calls given by an oracle that may fail
(`Except E`); the call sequences are the ones transcribed above, and the
state is threaded through the oracle exactly as the library object is
threaded through the Python calls. -/

/-- Run a list of external calls through a fallible oracle, threading the
library object; stops at (and returns) the first error.  This is the only
control flow the notebook functions have: straight-line sequencing. -/
def runCalls {σ γ E : Type} (ops : γ → σ → Except E σ) : List γ → σ → Except E σ
  | [], s => .ok s
  | c :: rest, s =>
    match ops c s with
    | .error e => .error e
    | .ok s' => runCalls ops rest s'

/-- `initialize_system` with fallible library calls. -/
def initialize_systemExc {E : Type} (ops : SystemCall → SystemModel → Except E SystemModel)
    (n_particles : ℕ) (mass box_size : ℚ) : Except E SystemModel :=
  runCalls ops (systemCallSeq n_particles mass box_size) SystemModel.empty

/-- `create_NonBonndedForce` with fallible library calls. -/
def create_NonBonndedForceExc {E : Type} (ops : ForceCall → ForceModel → Except E ForceModel)
    (n_particles : ℕ) (sigma epsilon charge : ℚ) : Except E ForceModel :=
  runCalls ops (forceCallSeq n_particles sigma epsilon charge) ForceModel.new

/-- `create_topology` with fallible library calls. -/
def create_topologyExc {E : Type} (ops : TopologyCall → TopologyModel → Except E TopologyModel)
    (n_particles : ℕ) (box_size : ℚ) : Except E TopologyModel :=
  runCalls ops (topologyCallSeq n_particles box_size) TopologyModel.empty

/-- `EulerIntegrator.__init__` with fallible library calls: the five `add*`
registrations, in source order, on the freshly constructed base integrator. -/
def EulerIntegratorExc {E : Type}
    (ops : IntegratorStep → CustomIntegrator → Except E CustomIntegrator)
    (timestep : ℚ) : Except E CustomIntegrator :=
  runCalls ops
    [.updateContextState, .computePerDof "v" "v+dt*f/m", .computePerDof "x" "x+dt*v",
     .constrainPositions, .constrainVelocities]
    (CustomIntegrator.new timestep)

/-- `EnergyReporter.report` with fallible library calls
(`state.getPotentialEnergy().value_in_unit(...)` and
`state.getKineticEnergy().value_in_unit(...)`, each modelled as one oracle
call returning the kJ/mol value). -/
def EnergyReporter.reportExc {E : Type} (getPE getKE : SimState → Except E ℚ)
    (r : EnergyReporter) (simulation : SimulationModel) (state : SimState) :
    Except E EnergyReporter := do
  let pe ← getPE state
  let ke ← getKE state
  .ok { r with
        _pe := r._pe ++ [pe]
        _ke := r._ke ++ [ke]
        _te := r._te ++ [pe + ke] }

/-- `boxvectors2length` with fallible library calls: the two `sqrt` calls
and the three `acos(...).in_units_of(degree)` calls (each modelled as one
oracle call returning the angle in degrees), applied to the destructured box
vectors in source order. -/
def boxvectors2lengthExc {E : Type} (sqrtE acosDegE : ℚ → Except E ℚ)
    (box_vectors : Mat3) : Except E ((ℚ × ℚ × ℚ) × (ℚ × ℚ × ℚ)) := do
  let ((lx, _, _), (xy, ly, _), (xz, yz, lz)) := box_vectors
  let a := lx
  let b ← sqrtE (ly ^ 2 + xy ^ 2)
  let c ← sqrtE (lz ^ 2 + xz ^ 2 + yz ^ 2)
  let alpha ← acosDegE ((xy * xz + ly * yz) / (b * c))
  let beta ← acosDegE (xz / c)
  let gamma ← acosDegE (yz / b)
  .ok ((a, b, c), (alpha, beta, gamma))

end MD

/-! # Theorems -/

namespace MD

/-! ## Helper lemmas -/

theorem except_bind_ok {α β E : Type} (a : α) (g : α → Except E β) :
    (Except.ok a >>= g) = g a := rfl

theorem except_bind_error {α β E : Type} (e : E) (g : α → Except E β) :
    ((Except.error e : Except E α) >>= g) = .error e := rfl

/-- Running a call list through an oracle that never fails is the plain fold
of the calls' effects: the fallible readings of the notebook functions agree
with the pure ones. -/
theorem runCalls_pure {σ γ E : Type} (app : σ → γ → σ) (calls : List γ) :
    ∀ s : σ, runCalls (fun c s => (.ok (app s c) : Except E σ)) calls s
      = .ok (calls.foldl app s) := by
  induction calls with
  | nil => intro s; rfl
  | cons c rest ih => intro s; simp [runCalls, ih]

/-- The first failing call determines the result: if every call before some
call `c` in the sequence succeeds and `c` fails with `e`, the whole sequence
returns exactly `.error e`. -/
theorem runCalls_error {σ γ E : Type} (ops : γ → σ → Except E σ)
    (pre : List γ) (c : γ) (post : List γ) (e : E)
    (hpre : ∀ c' ∈ pre, ∀ s, ∃ s', ops c' s = .ok s')
    (hc : ∀ s, ops c s = .error e) :
    ∀ s, runCalls ops (pre ++ c :: post) s = .error e := by
  induction pre with
  | nil =>
    intro s
    simp [runCalls, hc s]
  | cons a pre ih =>
    intro s
    obtain ⟨s', hs'⟩ := hpre a (List.mem_cons_self a pre) s
    simp only [List.cons_append, runCalls, hs']
    exact ih (fun c' hc' s => hpre c' (List.mem_cons_of_mem a hc') s) s'

theorem foldl_system_addParticles (k : ℕ) (m : ℚ) :
    ∀ s : SystemModel,
      ((List.replicate k (SystemCall.addParticle m)).foldl applySystemCall s)
        = { s with particles := s.particles ++ List.replicate k m } := by
  induction k with
  | zero => intro s; simp
  | succ k ih =>
    intro s
    simp [List.replicate_succ, applySystemCall, ih]

/-- `initialize_system` characterised: `n` particles of mass `mass` and the
diagonal `box_size` box. -/
theorem initialize_system_eq (n : ℕ) (mass box_size : ℚ) :
    initialize_system n mass box_size = ⟨List.replicate n mass, diag3 box_size⟩ := by
  simp [initialize_system, systemCallSeq, List.foldl_append,
        foldl_system_addParticles, applySystemCall, SystemModel.empty]

theorem foldl_force_addParticles (k : ℕ) (p : ℚ × ℚ × ℚ) :
    ∀ f : ForceModel,
      ((List.replicate k (ForceCall.addParticle p)).foldl applyForceCall f)
        = { f with particles := f.particles ++ List.replicate k p } := by
  induction k with
  | zero => intro f; simp
  | succ k ih =>
    intro f
    simp [List.replicate_succ, applyForceCall, ih]

/-- `create_NonBonndedForce` characterised: periodic cutoff method, `n`
identical `(charge, sigma, epsilon)` entries, cutoff `3σ`, switching on at
`2.5σ`, dispersion correction on. -/
theorem create_NonBonndedForce_eq (n : ℕ) (sigma epsilon charge : ℚ) :
    create_NonBonndedForce n sigma epsilon charge =
      ⟨.cutoffPeriodic, List.replicate n (charge, sigma, epsilon),
       3 * sigma, true, 2.5 * sigma, true⟩ := by
  simp [create_NonBonndedForce, forceCallSeq, List.foldl_append,
        foldl_force_addParticles, applyForceCall, ForceModel.new]

theorem foldl_topology_loop (l : List ℕ) :
    ∀ t : TopologyModel,
      (((l.flatMap fun i =>
          [TopologyCall.addResidue "Ar" i, TopologyCall.addAtom "Ar" "Ar"]).foldl
            applyTopologyCall t).residues.length = t.residues.length + l.length)
      ∧ (((l.flatMap fun i =>
          [TopologyCall.addResidue "Ar" i, TopologyCall.addAtom "Ar" "Ar"]).foldl
            applyTopologyCall t).atoms.length = t.atoms.length + l.length)
      ∧ (((l.flatMap fun i =>
          [TopologyCall.addResidue "Ar" i, TopologyCall.addAtom "Ar" "Ar"]).foldl
            applyTopologyCall t).chains = t.chains) := by
  induction l with
  | nil => intro t; simp
  | cons a l ih =>
    intro t
    obtain ⟨h1, h2, h3⟩ := ih (applyTopologyCall (applyTopologyCall t (.addResidue "Ar" a))
      (.addAtom "Ar" "Ar"))
    simp only [List.flatMap_cons, List.cons_append, List.nil_append, List.foldl_cons] at *
    refine ⟨?_, ?_, ?_⟩
    · rw [h1]; simp [applyTopologyCall]; omega
    · rw [h2]; simp [applyTopologyCall]; omega
    · rw [h3]; simp [applyTopologyCall]

/-- `create_topology` counts: one chain, `n` residues, `n` atoms, and the
diagonal `box_size` box. -/
theorem create_topology_counts (n : ℕ) (box_size : ℚ) :
    (create_topology n box_size).residues.length = n
    ∧ (create_topology n box_size).atoms.length = n
    ∧ (create_topology n box_size).chains = 1
    ∧ (create_topology n box_size).periodicBoxVectors = diag3 box_size := by
  obtain ⟨h1, h2, h3⟩ := foldl_topology_loop (List.range n)
    (applyTopologyCall TopologyModel.empty .addChain)
  simp only [create_topology, topologyCallSeq, List.foldl_append, List.foldl_cons,
    List.foldl_nil]
  constructor
  · simpa [applyTopologyCall, TopologyModel.empty] using h1
  constructor
  · simpa [applyTopologyCall, TopologyModel.empty] using h2
  constructor
  · simpa [applyTopologyCall, TopologyModel.empty] using h3
  · simp [applyTopologyCall]

/-- A single `report` call preserves the accumulation invariant: equally long
`_pe`/`_ke` lists with `_te` their pointwise sum. -/
theorem report_preserves_invariant (r : EnergyReporter) (sim : SimulationModel)
    (st : SimState) (hlen : r._pe.length = r._ke.length)
    (hte : r._te = List.zipWith (· + ·) r._pe r._ke) :
    (r.report sim st)._pe.length = (r.report sim st)._ke.length
    ∧ (r.report sim st)._te
        = List.zipWith (· + ·) (r.report sim st)._pe (r.report sim st)._ke := by
  constructor
  · simp [EnergyReporter.report, hlen]
  · simp [EnergyReporter.report, hte, List.zipWith_append _ _ _ _ _ hlen]

/-- The accumulation invariant after any sequence of `report` calls, together
with the list lengths. -/
theorem runReports_invariant (calls : List (SimulationModel × SimState)) :
    ∀ r : EnergyReporter, r._pe.length = r._ke.length →
      r._te = List.zipWith (· + ·) r._pe r._ke →
      (runReports r calls)._pe.length = r._pe.length + calls.length
      ∧ (runReports r calls)._ke.length = r._ke.length + calls.length
      ∧ (runReports r calls)._te.length = r._te.length + calls.length
      ∧ (runReports r calls)._pe.length = (runReports r calls)._ke.length
      ∧ (runReports r calls)._te
          = List.zipWith (· + ·) (runReports r calls)._pe (runReports r calls)._ke := by
  induction calls with
  | nil =>
    intro r hlen hte
    exact ⟨by simp [runReports], by simp [runReports], by simp [runReports],
           by simpa [runReports] using hlen, by simpa [runReports] using hte⟩
  | cons c rest ih =>
    intro r hlen hte
    obtain ⟨hlen', hte'⟩ := report_preserves_invariant r c.1 c.2 hlen hte
    obtain ⟨i1, i2, i3, i4, i5⟩ := ih (r.report c.1 c.2) hlen' hte'
    have e1 : (r.report c.1 c.2)._pe.length = r._pe.length + 1 := by
      simp [EnergyReporter.report]
    have e2 : (r.report c.1 c.2)._ke.length = r._ke.length + 1 := by
      simp [EnergyReporter.report]
    have e3 : (r.report c.1 c.2)._te.length = r._te.length + 1 := by
      simp [EnergyReporter.report]
    have hrun : runReports r (c :: rest) = runReports (r.report c.1 c.2) rest := by
      simp [runReports]
    rw [hrun]
    refine ⟨by rw [i1, e1, List.length_cons]; omega,
            by rw [i2, e2, List.length_cons]; omega,
            by rw [i3, e3, List.length_cons]; omega, i4, i5⟩

/-! ## Claim theorems -/

/-- C4: array lengths match the particle count.  For every `n_particles`
(and any mass, box size and force-field constants), the `System` built by
`initialize_system` has exactly `n_particles` particles, the
`NonbondedForce` built by `create_NonBonndedForce` has exactly `n_particles`
per-particle parameter entries, and the `Topology` built by
`create_topology` has exactly `n_particles` atoms and `n_particles` residues
(one atom per residue), so the three structures agree in length. -/
theorem array_lengths_match_particle_count
    (n_particles : ℕ) (mass box_size sigma epsilon charge : ℚ) :
    (initialize_system n_particles mass box_size).particles.length = n_particles
    ∧ (create_NonBonndedForce n_particles sigma epsilon charge).particles.length = n_particles
    ∧ (create_topology n_particles box_size).atoms.length = n_particles
    ∧ (create_topology n_particles box_size).residues.length = n_particles := by
  refine ⟨?_, ?_, (create_topology_counts n_particles box_size).2.1,
          (create_topology_counts n_particles box_size).1⟩
  · rw [initialize_system_eq]; simp
  · rw [create_NonBonndedForce_eq]; simp

/-- C7: the particle system carries a mass per particle and periodic box
vectors.  `initialize_system n_particles mass box_size` gives every one of
its `n_particles` particles the same mass `mass` (the particle list is
`replicate n_particles mass`), and sets the default periodic box vectors to
the diagonal (rectangular) matrix whose three rows are `(box_size, 0, 0)`,
`(0, box_size, 0)`, `(0, 0, box_size)`: a diagonal box with all three edge
lengths equal to `box_size`. -/
theorem system_mass_and_box (n_particles : ℕ) (mass box_size : ℚ) :
    initialize_system n_particles mass box_size
      = ⟨List.replicate n_particles mass,
         ((box_size, 0, 0), (0, box_size, 0), (0, 0, box_size))⟩ :=
  initialize_system_eq n_particles mass box_size

/-- C10: for positive `sigma` the switching distance `2.5σ` is strictly
below the cutoff distance `3σ`, the switching function is enabled, and every
particle of the `NonbondedForce` carries the identical
`(charge, sigma, epsilon)` triple. -/
theorem nonbonded_force_switching_invariant (n_particles : ℕ)
    (sigma epsilon charge : ℚ) (hsigma : 0 < sigma) :
    (create_NonBonndedForce n_particles sigma epsilon charge).switchingDistance
        < (create_NonBonndedForce n_particles sigma epsilon charge).cutoffDistance
    ∧ (create_NonBonndedForce n_particles sigma epsilon charge).switchingDistance
        = 2.5 * sigma
    ∧ (create_NonBonndedForce n_particles sigma epsilon charge).cutoffDistance
        = 3 * sigma
    ∧ (create_NonBonndedForce n_particles sigma epsilon charge).useSwitchingFunction = true
    ∧ (create_NonBonndedForce n_particles sigma epsilon charge).particles
        = List.replicate n_particles (charge, sigma, epsilon) := by
  rw [create_NonBonndedForce_eq]
  refine ⟨?_, rfl, rfl, rfl, rfl⟩
  show (2.5 : ℚ) * sigma < 3 * sigma
  have h : (2.5 : ℚ) < 3 := by norm_num
  exact mul_lt_mul_of_pos_right h hsigma

/-- Witness for C10 at `n_particles = 2`, `sigma = 1`, `epsilon = 0`,
`charge = 0`. -/
theorem nonbonded_force_switching_invariant_witness :
    (create_NonBonndedForce 2 1 0 0).switchingDistance
        < (create_NonBonndedForce 2 1 0 0).cutoffDistance
    ∧ (create_NonBonndedForce 2 1 0 0).switchingDistance = 2.5 * 1
    ∧ (create_NonBonndedForce 2 1 0 0).cutoffDistance = 3 * 1
    ∧ (create_NonBonndedForce 2 1 0 0).useSwitchingFunction = true
    ∧ (create_NonBonndedForce 2 1 0 0).particles = List.replicate 2 (0, 1, 0) :=
  nonbonded_force_switching_invariant 2 1 0 0 (by norm_num)

/-- C3: the reporter's interval-based callback returns the boolean tuple
`(getPositions, getVelocities, getForces, getEnergy, enforcePeriodicBox) =
(False, False, False, True, None)` — fetch only the energies — and its
accumulation step appends the potential energy, the kinetic energy, and
their sum to the three in-memory lists, leaving the interval unchanged. -/
theorem energy_reporter_callback_and_accumulation (r : EnergyReporter)
    (sim : SimulationModel) (state : SimState) :
    (r.describeNextReport sim).2 = (false, false, false, true, none)
    ∧ (r.report sim state)._pe = r._pe ++ [state.potentialEnergy]
    ∧ (r.report sim state)._ke = r._ke ++ [state.kineticEnergy]
    ∧ (r.report sim state)._te
        = r._te ++ [state.potentialEnergy + state.kineticEnergy]
    ∧ (r.report sim state)._reportInterval = r._reportInterval :=
  ⟨rfl, rfl, rfl, rfl, rfl⟩

/-- C8: for a positive report interval, the step count returned by
`describeNextReport` is between 1 and the interval, and the current step
plus that count is an exact multiple of the interval. -/
theorem describeNextReport_step_count (r : EnergyReporter) (sim : SimulationModel)
    (h : 0 < r._reportInterval) :
    1 ≤ (r.describeNextReport sim).1
    ∧ (r.describeNextReport sim).1 ≤ r._reportInterval
    ∧ (sim.currentStep + (r.describeNextReport sim).1) % r._reportInterval = 0 := by
  have hm : sim.currentStep % r._reportInterval < r._reportInterval :=
    Nat.mod_lt _ h
  have hle : sim.currentStep % r._reportInterval ≤ sim.currentStep :=
    Nat.mod_le _ _
  have hd : r._reportInterval * (sim.currentStep / r._reportInterval)
      + sim.currentStep % r._reportInterval = sim.currentStep :=
    Nat.div_add_mod _ _
  simp only [EnergyReporter.describeNextReport]
  refine ⟨by omega, by omega, ?_⟩
  have key : sim.currentStep
      + (r._reportInterval - sim.currentStep % r._reportInterval)
      = (sim.currentStep - sim.currentStep % r._reportInterval)
        + r._reportInterval := by omega
  have hsub : r._reportInterval * (sim.currentStep / r._reportInterval)
      = sim.currentStep - sim.currentStep % r._reportInterval :=
    Nat.eq_sub_of_add_eq hd
  rw [key, ← hsub, ← Nat.mul_succ, Nat.mul_mod_right]

/-- Witness for C8: interval 3 at current step 7 gives a step count of 2,
which is at least 1, at most 3, and lands on step 9, a multiple of 3. -/
theorem describeNextReport_step_count_witness :
    1 ≤ ((EnergyReporter.init 3).describeNextReport ⟨7⟩).1
    ∧ ((EnergyReporter.init 3).describeNextReport ⟨7⟩).1 ≤ (EnergyReporter.init 3)._reportInterval
    ∧ ((⟨7⟩ : SimulationModel).currentStep
        + ((EnergyReporter.init 3).describeNextReport ⟨7⟩).1) % (EnergyReporter.init 3)._reportInterval = 0 :=
  describeNextReport_step_count (EnergyReporter.init 3) ⟨7⟩ (by decide)

/-- C9: after any sequence of `report` calls on a freshly initialised
`EnergyReporter`, the three lists `_pe`, `_ke`, `_te` all have length equal
to the number of calls (one entry appended per call), and at every index the
`_te` entry is the sum of the `_pe` and `_ke` entries. -/
theorem energy_reporter_lists_sum (interval : ℕ)
    (calls : List (SimulationModel × SimState)) (i : ℕ) (hi : i < calls.length) :
    (runReports (EnergyReporter.init interval) calls)._pe.length = calls.length
    ∧ (runReports (EnergyReporter.init interval) calls)._ke.length = calls.length
    ∧ (runReports (EnergyReporter.init interval) calls)._te.length = calls.length
    ∧ (runReports (EnergyReporter.init interval) calls)._te.getD i 0
        = (runReports (EnergyReporter.init interval) calls)._pe.getD i 0
          + (runReports (EnergyReporter.init interval) calls)._ke.getD i 0 := by
  obtain ⟨i1, i2, i3, i4, i5⟩ := runReports_invariant calls (EnergyReporter.init interval)
    rfl rfl
  have i1' : (runReports (EnergyReporter.init interval) calls)._pe.length = calls.length := by
    simpa [EnergyReporter.init] using i1
  have i2' : (runReports (EnergyReporter.init interval) calls)._ke.length = calls.length := by
    simpa [EnergyReporter.init] using i2
  have i3' : (runReports (EnergyReporter.init interval) calls)._te.length = calls.length := by
    simpa [EnergyReporter.init] using i3
  refine ⟨i1', i2', i3', ?_⟩
  have hpe : i < (runReports (EnergyReporter.init interval) calls)._pe.length := by
    rw [i1']; exact hi
  have hke : i < (runReports (EnergyReporter.init interval) calls)._ke.length := by
    rw [i2']; exact hi
  have hte : i < (runReports (EnergyReporter.init interval) calls)._te.length := by
    rw [i3']; exact hi
  rw [List.getD_eq_getElem _ _ hte, List.getD_eq_getElem _ _ hpe,
      List.getD_eq_getElem _ _ hke]
  simp only [i5, List.getElem_zipWith]

/-- Witness for C9: two reports with energies `(1, 2)` and `(3, 4)`; at
index 1 the total-energy entry is `3 + 4`. -/
theorem energy_reporter_lists_sum_witness :
    (runReports (EnergyReporter.init 1) [(⟨0⟩, ⟨1, 2⟩), (⟨0⟩, ⟨3, 4⟩)])._pe.length = 2
    ∧ (runReports (EnergyReporter.init 1) [(⟨0⟩, ⟨1, 2⟩), (⟨0⟩, ⟨3, 4⟩)])._ke.length = 2
    ∧ (runReports (EnergyReporter.init 1) [(⟨0⟩, ⟨1, 2⟩), (⟨0⟩, ⟨3, 4⟩)])._te.length = 2
    ∧ (runReports (EnergyReporter.init 1) [(⟨0⟩, ⟨1, 2⟩), (⟨0⟩, ⟨3, 4⟩)])._te.getD 1 0
        = (runReports (EnergyReporter.init 1) [(⟨0⟩, ⟨1, 2⟩), (⟨0⟩, ⟨3, 4⟩)])._pe.getD 1 0
          + (runReports (EnergyReporter.init 1) [(⟨0⟩, ⟨1, 2⟩), (⟨0⟩, ⟨3, 4⟩)])._ke.getD 1 0 :=
  energy_reporter_lists_sum 1 [(⟨0⟩, ⟨1, 2⟩), (⟨0⟩, ⟨3, 4⟩)] 1 (by norm_num)

/-- C1: the custom integrator's program is exactly the stated fixed sequence
and nothing else: first the context-state update by the forces, then the
per-DOF rule `v ← v + dt·f/m`, then the per-DOF rule `x ← x + dt·v`, then
the constraint projection of positions, then of velocities — and the two
registered expression strings parse to exactly those update rules. -/
theorem euler_integrator_step_sequence (timestep : ℚ) :
    (EulerIntegrator timestep).steps
        = [.updateContextState,
           .computePerDof "v" "v+dt*f/m",
           .computePerDof "x" "x+dt*v",
           .constrainPositions,
           .constrainVelocities]
    ∧ (EulerIntegrator timestep).timestep = timestep
    ∧ parsePerDofExpr "v+dt*f/m"
        = some (.add (.var "v") (.div (.mul (.var "dt") (.var "f")) (.var "m")))
    ∧ parsePerDofExpr "x+dt*v"
        = some (.add (.var "x") (.mul (.var "dt") (.var "v"))) :=
  ⟨rfl, rfl, by decide, by decide⟩

/-- C2 counterexample: the claim predicts that one step of
`EulerIntegrator` with `dt = 1` maps the unconstrained state
`(x, v, f, m) = (0, 0, 1, 1)` to position `x + dt·v = 0`; the integrator
actually produces position `1`, because the position update reads the
already-updated velocity. -/
theorem euler_step_claim_counterexample :
    CustomIntegrator.stepOnce (EulerIntegrator 1) id id ⟨0, 0, 1, 1⟩
      ≠ some ⟨0 + 1 * 0, 0 + 1 * 1 / 1, 1, 1⟩ := by
  intro h
  have h1 : CustomIntegrator.stepOnce (EulerIntegrator 1) id id ⟨0, 0, 1, 1⟩
      = some ⟨0 + 1 * (0 + 1 * 1 / 1), 0 + 1 * 1 / 1, 1, 1⟩ := rfl
  rw [h1] at h
  have h2 : (0 : ℚ) + 1 * (0 + 1 * 1 / 1) = 0 + 1 * 0 :=
    congrArg DofState.x (Option.some.inj h)
  norm_num at h2

/-- C2 amended: the hand-rolled integrator implements semi-implicit
(symplectic) Euler, not forward Euler: for every unconstrained state
`(x, v)` with force `f` and mass `m`, one step maps it to
`(x + dt·(v + dt·f/m), v + dt·f/m)` — the new position is computed from the
already-updated velocity, not from the pre-step velocity. -/
theorem euler_step_semi_implicit (dt x v f m : ℚ) :
    CustomIntegrator.stepOnce (EulerIntegrator dt) id id ⟨x, v, f, m⟩
      = some ⟨x + dt * (v + dt * f / m), v + dt * f / m, f, m⟩ := rfl

/-- C5 counterexample: the droplet notebook's normal run does not follow the
spec's pipeline order — it visualizes the starting configuration (stage 10)
before minimizing (stage 6), and sets the velocities (part of stage 5, set
initial state) after attaching the reporters (stage 7). -/
theorem droplet_run_breaks_pipeline_order :
    ¬ followsPipeline dropletNormalRun := by decide

/-- C5 amended: every simulation run of the integrator notebook (the
reference run, the Euler run, the comparison equilibration and each
comparison-loop iteration) performs its pipeline stages in nondecreasing
order, but neither droplet-notebook run does: the normal droplet run
visualizes before minimizing and sets velocities after attaching reporters,
and the spherical droplet run attaches the restraint force after the
integrator is defined. -/
theorem pipeline_order_amended :
    followsPipeline referenceRun
    ∧ followsPipeline eulerRun
    ∧ followsPipeline comparisonInitRun
    ∧ followsPipeline comparisonLoopRun
    ∧ ¬ followsPipeline dropletNormalRun
    ∧ ¬ followsPipeline dropletSphericalRun := by decide

/-- C6: no function or class defined in the repository catches, transforms,
or recovers from errors.  Read with fallible external calls, each notebook
function is a straight-line sequence of library calls: whenever the calls
before some call in the sequence succeed and that call raises `e`, the
function returns exactly `.error e` — the error propagates unchanged to the
caller, for `initialize_system`, `create_NonBonndedForce`,
`create_topology`, `EulerIntegrator.__init__`, `EnergyReporter.report`
(either energy getter failing) and `boxvectors2length` (any of its five
math-library calls failing). -/
theorem errors_propagate_unchanged {E : Type} :
    (∀ (ops : SystemCall → SystemModel → Except E SystemModel)
        (n : ℕ) (mass box_size : ℚ) (pre : List SystemCall) (c : SystemCall)
        (post : List SystemCall) (e : E),
        systemCallSeq n mass box_size = pre ++ c :: post →
        (∀ c' ∈ pre, ∀ s, ∃ s', ops c' s = .ok s') →
        (∀ s, ops c s = .error e) →
        initialize_systemExc ops n mass box_size = .error e)
    ∧ (∀ (ops : ForceCall → ForceModel → Except E ForceModel)
        (n : ℕ) (sigma epsilon charge : ℚ) (pre : List ForceCall) (c : ForceCall)
        (post : List ForceCall) (e : E),
        forceCallSeq n sigma epsilon charge = pre ++ c :: post →
        (∀ c' ∈ pre, ∀ s, ∃ s', ops c' s = .ok s') →
        (∀ s, ops c s = .error e) →
        create_NonBonndedForceExc ops n sigma epsilon charge = .error e)
    ∧ (∀ (ops : TopologyCall → TopologyModel → Except E TopologyModel)
        (n : ℕ) (box_size : ℚ) (pre : List TopologyCall) (c : TopologyCall)
        (post : List TopologyCall) (e : E),
        topologyCallSeq n box_size = pre ++ c :: post →
        (∀ c' ∈ pre, ∀ s, ∃ s', ops c' s = .ok s') →
        (∀ s, ops c s = .error e) →
        create_topologyExc ops n box_size = .error e)
    ∧ (∀ (ops : IntegratorStep → CustomIntegrator → Except E CustomIntegrator)
        (timestep : ℚ) (pre : List IntegratorStep) (c : IntegratorStep)
        (post : List IntegratorStep) (e : E),
        [IntegratorStep.updateContextState,
         IntegratorStep.computePerDof "v" "v+dt*f/m",
         IntegratorStep.computePerDof "x" "x+dt*v",
         IntegratorStep.constrainPositions,
         IntegratorStep.constrainVelocities] = pre ++ c :: post →
        (∀ c' ∈ pre, ∀ s, ∃ s', ops c' s = .ok s') →
        (∀ s, ops c s = .error e) →
        EulerIntegratorExc ops timestep = .error e)
    ∧ (∀ (getPE getKE : SimState → Except E ℚ) (r : EnergyReporter)
        (sim : SimulationModel) (st : SimState) (e : E),
        getPE st = .error e →
        EnergyReporter.reportExc getPE getKE r sim st = .error e)
    ∧ (∀ (getPE getKE : SimState → Except E ℚ) (r : EnergyReporter)
        (sim : SimulationModel) (st : SimState) (pe : ℚ) (e : E),
        getPE st = .ok pe → getKE st = .error e →
        EnergyReporter.reportExc getPE getKE r sim st = .error e)
    ∧ (∀ (sqrtE acosDegE : ℚ → Except E ℚ) (lx a12 a13 xy ly a23 xz yz lz : ℚ) (e : E),
        sqrtE (ly ^ 2 + xy ^ 2) = .error e →
        boxvectors2lengthExc sqrtE acosDegE ((lx, a12, a13), (xy, ly, a23), (xz, yz, lz))
          = .error e)
    ∧ (∀ (sqrtE acosDegE : ℚ → Except E ℚ) (lx a12 a13 xy ly a23 xz yz lz bq : ℚ) (e : E),
        sqrtE (ly ^ 2 + xy ^ 2) = .ok bq →
        sqrtE (lz ^ 2 + xz ^ 2 + yz ^ 2) = .error e →
        boxvectors2lengthExc sqrtE acosDegE ((lx, a12, a13), (xy, ly, a23), (xz, yz, lz))
          = .error e)
    ∧ (∀ (sqrtE acosDegE : ℚ → Except E ℚ) (lx a12 a13 xy ly a23 xz yz lz bq cq : ℚ) (e : E),
        sqrtE (ly ^ 2 + xy ^ 2) = .ok bq →
        sqrtE (lz ^ 2 + xz ^ 2 + yz ^ 2) = .ok cq →
        acosDegE ((xy * xz + ly * yz) / (bq * cq)) = .error e →
        boxvectors2lengthExc sqrtE acosDegE ((lx, a12, a13), (xy, ly, a23), (xz, yz, lz))
          = .error e)
    ∧ (∀ (sqrtE acosDegE : ℚ → Except E ℚ)
        (lx a12 a13 xy ly a23 xz yz lz bq cq alpha : ℚ) (e : E),
        sqrtE (ly ^ 2 + xy ^ 2) = .ok bq →
        sqrtE (lz ^ 2 + xz ^ 2 + yz ^ 2) = .ok cq →
        acosDegE ((xy * xz + ly * yz) / (bq * cq)) = .ok alpha →
        acosDegE (xz / cq) = .error e →
        boxvectors2lengthExc sqrtE acosDegE ((lx, a12, a13), (xy, ly, a23), (xz, yz, lz))
          = .error e)
    ∧ (∀ (sqrtE acosDegE : ℚ → Except E ℚ)
        (lx a12 a13 xy ly a23 xz yz lz bq cq alpha beta : ℚ) (e : E),
        sqrtE (ly ^ 2 + xy ^ 2) = .ok bq →
        sqrtE (lz ^ 2 + xz ^ 2 + yz ^ 2) = .ok cq →
        acosDegE ((xy * xz + ly * yz) / (bq * cq)) = .ok alpha →
        acosDegE (xz / cq) = .ok beta →
        acosDegE (yz / bq) = .error e →
        boxvectors2lengthExc sqrtE acosDegE ((lx, a12, a13), (xy, ly, a23), (xz, yz, lz))
          = .error e) := by
  refine ⟨?_, ?_, ?_, ?_, ?_, ?_, ?_, ?_, ?_, ?_, ?_⟩
  · intro ops n mass box_size pre c post e hseq hpre hc
    simp only [initialize_systemExc, hseq]
    exact runCalls_error ops pre c post e hpre hc _
  · intro ops n sigma epsilon charge pre c post e hseq hpre hc
    simp only [create_NonBonndedForceExc, hseq]
    exact runCalls_error ops pre c post e hpre hc _
  · intro ops n box_size pre c post e hseq hpre hc
    simp only [create_topologyExc, hseq]
    exact runCalls_error ops pre c post e hpre hc _
  · intro ops timestep pre c post e hseq hpre hc
    simp only [EulerIntegratorExc, hseq]
    exact runCalls_error ops pre c post e hpre hc _
  · intro getPE getKE r sim st e h
    simp only [EnergyReporter.reportExc, h, except_bind_error]
  · intro getPE getKE r sim st pe e h1 h2
    simp only [EnergyReporter.reportExc, h1, except_bind_ok, h2, except_bind_error]
  · intro sqrtE acosDegE lx a12 a13 xy ly a23 xz yz lz e h1
    simp only [boxvectors2lengthExc, h1, except_bind_error]
  · intro sqrtE acosDegE lx a12 a13 xy ly a23 xz yz lz bq e h1 h2
    simp only [boxvectors2lengthExc, h1, except_bind_ok, h2, except_bind_error]
  · intro sqrtE acosDegE lx a12 a13 xy ly a23 xz yz lz bq cq e h1 h2 h3
    simp only [boxvectors2lengthExc, h1, except_bind_ok, h2, h3, except_bind_error]
  · intro sqrtE acosDegE lx a12 a13 xy ly a23 xz yz lz bq cq alpha e h1 h2 h3 h4
    simp only [boxvectors2lengthExc, h1, except_bind_ok, h2, h3, h4, except_bind_error]
  · intro sqrtE acosDegE lx a12 a13 xy ly a23 xz yz lz bq cq alpha beta e h1 h2 h3 h4 h5
    simp only [boxvectors2lengthExc, h1, except_bind_ok, h2, h3, h4, h5, except_bind_error]

/-- Witness for C6: concrete failing oracles for each conjunct — a first
call failing in each of the four call sequences, each of the two energy
getters failing in `report`, and each of the five math calls failing in
`boxvectors2length`. -/
theorem errors_propagate_unchanged_witness :
    initialize_systemExc (fun _ _ => (Except.error 3 : Except ℕ SystemModel)) 1 1 1
        = .error 3
    ∧ create_NonBonndedForceExc (fun _ _ => (Except.error 3 : Except ℕ ForceModel)) 1 1 1 1
        = .error 3
    ∧ create_topologyExc (fun _ _ => (Except.error 3 : Except ℕ TopologyModel)) 1 1
        = .error 3
    ∧ EulerIntegratorExc (fun _ _ => (Except.error 3 : Except ℕ CustomIntegrator)) 1
        = .error 3
    ∧ EnergyReporter.reportExc (fun _ => (Except.error 3 : Except ℕ ℚ))
        (fun _ => .ok 0) (EnergyReporter.init 1) ⟨0⟩ ⟨1, 2⟩ = .error 3
    ∧ EnergyReporter.reportExc (fun _ => (Except.ok 5 : Except ℕ ℚ))
        (fun _ => .error 3) (EnergyReporter.init 1) ⟨0⟩ ⟨1, 2⟩ = .error 3
    ∧ boxvectors2lengthExc (fun _ => (Except.error 3 : Except ℕ ℚ)) (fun _ => .ok 0)
        ((1, 0, 0), (0, 1, 0), (0, 0, 2)) = .error 3
    ∧ boxvectors2lengthExc
        (fun q => if q = 1 then (Except.ok 1 : Except ℕ ℚ) else .error 3)
        (fun _ => .ok 0) ((1, 0, 0), (0, 1, 0), (0, 0, 2)) = .error 3
    ∧ boxvectors2lengthExc (fun _ => (Except.ok 1 : Except ℕ ℚ))
        (fun _ => .error 3) ((1, 0, 0), (0, 1, 0), (0, 0, 2)) = .error 3
    ∧ boxvectors2lengthExc (fun _ => (Except.ok 1 : Except ℕ ℚ))
        (fun q => if q = 0 then .ok 0 else .error 3)
        ((1, 0, 0), (0, 1, 0), (1, 0, 2)) = .error 3
    ∧ boxvectors2lengthExc (fun _ => (Except.ok 1 : Except ℕ ℚ))
        (fun q => if q = 0 then .ok 0 else .error 3)
        ((1, 0, 0), (0, 0, 0), (0, 1, 2)) = .error 3 := by
  refine ⟨?_, ?_, ?_, ?_, ?_, ?_, ?_, ?_, ?_, ?_, ?_⟩
  · exact (@errors_propagate_unchanged ℕ).1 (fun _ _ => .error 3) 1 1 1 []
      (.addParticle 1) [.setDefaultPeriodicBoxVectors (diag3 1)] 3 rfl
      (fun c' hc' => absurd hc' (List.not_mem_nil c')) (fun _ => rfl)
  · exact (@errors_propagate_unchanged ℕ).2.1 (fun _ _ => .error 3) 1 1 1 1 []
      (.setNonbondedMethod .cutoffPeriodic)
      [.addParticle (1, 1, 1), .setCutoffDistance (3 * 1),
       .setUseSwitchingFunction true, .setSwitchingDistance (2.5 * 1),
       .setUseDispersionCorrection true] 3 rfl
      (fun c' hc' => absurd hc' (List.not_mem_nil c')) (fun _ => rfl)
  · exact (@errors_propagate_unchanged ℕ).2.2.1 (fun _ _ => .error 3) 1 1 []
      .addChain
      [.addResidue "Ar" 0, .addAtom "Ar" "Ar", .setPeriodicBoxVectors (diag3 1)] 3 rfl
      (fun c' hc' => absurd hc' (List.not_mem_nil c')) (fun _ => rfl)
  · exact (@errors_propagate_unchanged ℕ).2.2.2.1 (fun _ _ => .error 3) 1 []
      .updateContextState
      [.computePerDof "v" "v+dt*f/m", .computePerDof "x" "x+dt*v",
       .constrainPositions, .constrainVelocities] 3 rfl
      (fun c' hc' => absurd hc' (List.not_mem_nil c')) (fun _ => rfl)
  · exact (@errors_propagate_unchanged ℕ).2.2.2.2.1 (fun _ => .error 3)
      (fun _ => .ok 0) (EnergyReporter.init 1) ⟨0⟩ ⟨1, 2⟩ 3 rfl
  · exact (@errors_propagate_unchanged ℕ).2.2.2.2.2.1 (fun _ => .ok 5)
      (fun _ => .error 3) (EnergyReporter.init 1) ⟨0⟩ ⟨1, 2⟩ 5 3 rfl rfl
  · exact (@errors_propagate_unchanged ℕ).2.2.2.2.2.2.1 (fun _ => .error 3)
      (fun _ => .ok 0) 1 0 0 0 1 0 0 0 2 3 rfl
  · exact (@errors_propagate_unchanged ℕ).2.2.2.2.2.2.2.1
      (fun q => if q = 1 then (Except.ok 1 : Except ℕ ℚ) else .error 3)
      (fun _ => .ok 0) 1 0 0 0 1 0 0 0 2 1 3
      (by norm_num) (by norm_num)
  · exact (@errors_propagate_unchanged ℕ).2.2.2.2.2.2.2.2.1
      (fun _ => .ok 1) (fun _ => .error 3) 1 0 0 0 1 0 0 0 2 1 1 3 rfl rfl rfl
  · exact (@errors_propagate_unchanged ℕ).2.2.2.2.2.2.2.2.2.1
      (fun _ => .ok 1) (fun q => if q = 0 then .ok 0 else .error 3)
      1 0 0 0 1 0 1 0 2 1 1 0 3 rfl rfl (by norm_num) (by norm_num)
  · exact (@errors_propagate_unchanged ℕ).2.2.2.2.2.2.2.2.2.2
      (fun _ => .ok 1) (fun q => if q = 0 then .ok 0 else .error 3)
      1 0 0 0 0 0 0 1 2 1 1 0 0 3 rfl rfl (by norm_num) (by norm_num) (by norm_num)

end MD
